import Mathlib

/-!
Shallow embedding of the arbitrage-contract core (multi-hop swap router):
parameter validation, per-step account-index validation and resolution,
the venue swap adapters' result handling, the hop-sequencing loop, and the
final profitability gate, translated from the Rust sources
(`src/instructions/execute_arbitrage.rs`, `src/account_resolver/resolver.rs`,
`src/dex_router/{router,swaps,types}.rs`, `src/account_derivation/derivation.rs`,
`src/state.rs`).

Machine integers are modelled as `Nat` with explicit `% 2^64` (or checked /
saturating operations) exactly where the Rust code performs wrapping, checked
or saturating arithmetic.  Account addresses (`Pubkey`) are opaque 32-byte
identifiers, modelled as `Nat`.  Fallible Rust functions returning
`Result<T, Error>` become `Except Err T`.
-/

namespace ArbitrageContract

/-- 2^64, the modulus of the u64 type. -/
def U64MOD : Nat := 2 ^ 64

/-- Largest u64 value. -/
def u64Max : Nat := U64MOD - 1

/-- `u64::saturating_add` on values already `< 2^64`. -/
def satAdd64 (a b : Nat) : Nat := min (a + b) u64Max

/-- `u64::checked_mul`: `none` on overflow past `2^64`. -/
def checkedMulU64 (a b : Nat) : Option Nat :=
  if a * b < U64MOD then some (a * b) else none

/-- `u128::checked_mul`: `none` on overflow past `2^128`. -/
def checkedMulU128 (a b : Nat) : Option Nat :=
  if a * b < 2 ^ 128 then some (a * b) else none

/-- `u128::checked_add`: `none` on overflow past `2^128`. -/
def checkedAddU128 (a b : Nat) : Option Nat :=
  if a + b < 2 ^ 128 then some (a + b) else none

/-- Opaque 32-byte account address (`Pubkey`). -/
abbrev Pubkey := Nat

deriving instance DecidableEq for Except

/-- A u8 table index, as used by `PathAccountMappingV2.indices: Vec<u8>`. -/
abbrev U8 := Fin 256

/-- Error codes: the union of `ArbitrageError` (src/errors.rs) and
`DexRouterError` (src/dex_router/router.rs, constructors with `Dex` prefix). -/
inductive Err where
  | InvalidPath
  | PathTooShort
  | PathTooLong
  | InvalidAmount
  | MissingTokenAccount
  | InsufficientOutputAmount
  | UnprofitableTrade
  | InsufficientAccounts
  | InvalidAccountIndex
  | InvalidAccountType
  | SwapExecutionFailed
  | InvalidAccountCount
  | AccountNotFound
  | InvalidPublicKey
  | MissingRequiredAccount
  | InvalidAccount
  | MathOverflow
  | InvalidTokenMint
  | InsufficientLiquidity
  | UnsupportedDex
  | InvalidSlippage
  | SlippageTooHigh
  | FeeTooHigh
  | ZeroAmountOut
  | InvalidFeeAmount
  | InsufficientProfit
  | DexHealthCheckFailed
  | InvalidInstructionData
  | DexInvalidAccountType
  | DexSwapExecutionFailed
  | DexInsufficientOutputAmount
  deriving DecidableEq, Repr

/-- `DexType` (src/state.rs). -/
inductive DexType where
  | RaydiumCpmm
  | RaydiumClmm
  | PumpFunBondingCurve
  | PumpSwap
  deriving DecidableEq, Repr

/-- `ContractType` (src/state.rs). -/
inductive ContractType where
  | CPMM
  | CLMM
  | BondingCurve
  | PumpSwap
  deriving DecidableEq, Repr

/-- `PathStep` (src/state.rs). -/
structure PathStep where
  poolId : Option Pubkey
  dexType : DexType
  inputMint : Pubkey
  outputMint : Pubkey
  minimumAmountOut : Nat
  deriving DecidableEq, Repr

/-- `PathAccountMappingV2` (src/state.rs): indices into the flat
`remaining_accounts` table are 8-bit unsigned integers. -/
structure PathAccountMappingV2 where
  dexType : DexType
  contractType : ContractType
  indices : List U8
  deriving DecidableEq, Repr

/-- `ArbitrageParams` (src/state.rs). -/
structure ArbitrageParams where
  inputAmount : Nat
  minProfitLamports : Nat
  maxSlippageBps : Nat
  pathSteps : List PathStep
  accountMappingsV2 : List PathAccountMappingV2
  deriving DecidableEq, Repr

/-- The four pre-checks at the top of `execute_arbitrage`
(src/instructions/execute_arbitrage.rs lines 35-38), performed in source
order before any derivation. -/
def validateParams (p : ArbitrageParams) : Except Err Unit :=
  if p.pathSteps.isEmpty then .error .PathTooShort
  else if p.pathSteps.length > 10 then .error .PathTooLong
  else if p.inputAmount = 0 then .error .InvalidAmount
  else if p.accountMappingsV2.length ≠ p.pathSteps.length then .error .InvalidAccountCount
  else .ok ()

/-- `get_expected_account_count` (src/dex_router/types.rs lines 60-67). -/
def getExpectedAccountCount : DexType → Nat
  | .RaydiumCpmm => 7
  | .RaydiumClmm => 11
  | .PumpFunBondingCurve => 3
  | .PumpSwap => 4

/-- The count portion of `AccountResolver::validate_indices_for_dex`
(src/account_resolver/resolver.rs lines 113-157).  The Rust code compares
`actual_len_u8 = mapping.indices.len() as u8`, i.e. the length truncated
mod 256; the `RaydiumCpmm` arm is the catch-all `_` arm comparing against
`get_expected_account_count`. -/
def indicesCountCheck : DexType → Nat → Except Err Unit
  | .RaydiumClmm, indicesLen =>
      if indicesLen % 256 ≠ 11 then .error .InvalidAccountCount else .ok ()
  | .PumpFunBondingCurve, indicesLen =>
      if 3 ≤ indicesLen % 256 ∧ indicesLen % 256 ≤ 4 then .ok ()
      else .error .InvalidAccountCount
  | .PumpSwap, indicesLen =>
      if 4 ≤ indicesLen % 256 ∧ indicesLen % 256 ≤ 6 then .ok ()
      else .error .InvalidAccountCount
  | .RaydiumCpmm, indicesLen =>
      if indicesLen % 256 ≠ getExpectedAccountCount .RaydiumCpmm then
        .error .InvalidAccountCount
      else .ok ()

/-- The bounds-and-duplicates loop of `validate_indices_for_dex`
(src/account_resolver/resolver.rs lines 160-174): per index, first the
out-of-bounds check against the table length, then the seen-set insertion. -/
def indexLoop (total : Nat) (seen : List U8) : List U8 → Except Err Unit
  | [] => .ok ()
  | idx :: rest =>
      if total ≤ (idx : Nat) then .error .InvalidAccountIndex
      else if idx ∈ seen then .error .InvalidAccountIndex
      else indexLoop total (idx :: seen) rest

/-- The index-validation stage (bounds + pairwise distinctness), starting
from an empty seen-set as in the Rust loop. -/
def checkIndices (total : Nat) (indices : List U8) : Except Err Unit :=
  indexLoop total [] indices

/-- `AccountResolver::validate_indices_for_dex`: count check first, then the
index checks; `total` is `remaining_accounts.len()`. -/
def validateIndicesForDex (total : Nat) (m : PathAccountMappingV2) : Except Err Unit :=
  match indicesCountCheck m.dexType m.indices.length with
  | .error e => .error e
  | .ok _ => checkIndices total m.indices

/-- `AccountResolver::ai` (src/account_resolver/resolver.rs lines 196-201):
look up a u8 index in the flat table, `InvalidAccountIndex` when out of range. -/
def resolverAi (table : List α) (idx : U8) : Except Err α :=
  match table[(idx : Nat)]? with
  | some a => .ok a
  | none => .error .InvalidAccountIndex

/-- `RaydiumCpmmAccounts` (src/account_resolver/accounts.rs), entries of the
flat table selected by indices. -/
structure RaydiumCpmmAccounts (α : Type) where
  ammConfig : α
  poolState : α
  token0Vault : α
  token1Vault : α
  inputMint : α
  outputMint : α
  observationState : α
  deriving DecidableEq, Repr

/-- `RaydiumClmmAccounts` (src/account_resolver/accounts.rs). -/
structure RaydiumClmmAccounts (α : Type) where
  clmmProgram : α
  ammConfig : α
  poolState : α
  inputVault : α
  outputVault : α
  observationState : α
  tokenProgram : α
  tokenProgram2022 : α
  memoProgram : α
  inputVaultMint : α
  outputVaultMint : α
  deriving DecidableEq, Repr

/-- `PumpfunAccounts` (src/account_resolver/accounts.rs). -/
structure PumpfunAccounts (α : Type) where
  bondingCurve : α
  mint : α
  creator : α
  feeRecipientOpt : Option α
  deriving DecidableEq, Repr

/-- `PumpswapAccounts` (src/account_resolver/accounts.rs). -/
structure PumpswapAccounts (α : Type) where
  poolState : α
  baseMint : α
  quoteMint : α
  coinCreator : α
  feeRecipientOpt : Option α
  feeRecipientAtaOpt : Option α
  deriving DecidableEq, Repr

/-- `AccountResolver::resolve_raydium_cpmm_by_indices`
(src/account_resolver/resolver.rs lines 23-40): exactly 7 indices, else
`InvalidAccountCount`. -/
def resolveRaydiumCpmmByIndices (table : List α) (m : PathAccountMappingV2) :
    Except Err (RaydiumCpmmAccounts α) :=
  match m.indices with
  | [i0, i1, i2, i3, i4, i5, i6] => do
      let a0 ← resolverAi table i0
      let a1 ← resolverAi table i1
      let a2 ← resolverAi table i2
      let a3 ← resolverAi table i3
      let a4 ← resolverAi table i4
      let a5 ← resolverAi table i5
      let a6 ← resolverAi table i6
      .ok ⟨a0, a1, a2, a3, a4, a5, a6⟩
  | _ => .error .InvalidAccountCount

/-- `AccountResolver::resolve_raydium_clmm_by_indices`
(src/account_resolver/resolver.rs lines 43-64): exactly 11 indices. -/
def resolveRaydiumClmmByIndices (table : List α) (m : PathAccountMappingV2) :
    Except Err (RaydiumClmmAccounts α) :=
  match m.indices with
  | [i0, i1, i2, i3, i4, i5, i6, i7, i8, i9, i10] => do
      let a0 ← resolverAi table i0
      let a1 ← resolverAi table i1
      let a2 ← resolverAi table i2
      let a3 ← resolverAi table i3
      let a4 ← resolverAi table i4
      let a5 ← resolverAi table i5
      let a6 ← resolverAi table i6
      let a7 ← resolverAi table i7
      let a8 ← resolverAi table i8
      let a9 ← resolverAi table i9
      let a10 ← resolverAi table i10
      .ok ⟨a0, a1, a2, a3, a4, a5, a6, a7, a8, a9, a10⟩
  | _ => .error .InvalidAccountCount

/-- `AccountResolver::resolve_pumpfun_by_indices`
(src/account_resolver/resolver.rs lines 67-84): 3 or 4 indices, the 4th an
optional fee-recipient override. -/
def resolvePumpfunByIndices (table : List α) (m : PathAccountMappingV2) :
    Except Err (PumpfunAccounts α) :=
  match m.indices with
  | [i0, i1, i2] => do
      let a0 ← resolverAi table i0
      let a1 ← resolverAi table i1
      let a2 ← resolverAi table i2
      .ok ⟨a0, a1, a2, none⟩
  | [i0, i1, i2, i3] => do
      let fee ← resolverAi table i3
      let a0 ← resolverAi table i0
      let a1 ← resolverAi table i1
      let a2 ← resolverAi table i2
      .ok ⟨a0, a1, a2, some fee⟩
  | _ => .error .InvalidAccountCount

/-- `AccountResolver::resolve_pumpswap_by_indices`
(src/account_resolver/resolver.rs lines 87-107): 4 to 6 indices, the 5th and
6th optional fee-recipient / fee-recipient-token-account overrides. -/
def resolvePumpswapByIndices (table : List α) (m : PathAccountMappingV2) :
    Except Err (PumpswapAccounts α) :=
  match m.indices with
  | [i0, i1, i2, i3] => do
      let a0 ← resolverAi table i0
      let a1 ← resolverAi table i1
      let a2 ← resolverAi table i2
      let a3 ← resolverAi table i3
      .ok ⟨a0, a1, a2, a3, none, none⟩
  | [i0, i1, i2, i3, i4] => do
      let fee ← resolverAi table i4
      let a0 ← resolverAi table i0
      let a1 ← resolverAi table i1
      let a2 ← resolverAi table i2
      let a3 ← resolverAi table i3
      .ok ⟨a0, a1, a2, a3, some fee, none⟩
  | [i0, i1, i2, i3, i4, i5] => do
      let fee ← resolverAi table i4
      let feeAta ← resolverAi table i5
      let a0 ← resolverAi table i0
      let a1 ← resolverAi table i1
      let a2 ← resolverAi table i2
      let a3 ← resolverAi table i3
      .ok ⟨a0, a1, a2, a3, some fee, some feeAta⟩
  | _ => .error .InvalidAccountCount

/-- `DexAccounts` (src/dex_router/types.rs). -/
inductive DexAccounts (α : Type) where
  | raydiumCpmm (a : RaydiumCpmmAccounts α)
  | raydiumClmm (a : RaydiumClmmAccounts α)
  | pumpfun (a : PumpfunAccounts α)
  | pumpswap (a : PumpswapAccounts α)
  deriving DecidableEq, Repr

/-- The dispatch on `step.dex_type` in the body of `execute_arbitrage`
(src/instructions/execute_arbitrage.rs lines 99-112). -/
def resolveDexAccounts (table : List α) (dexType : DexType)
    (m : PathAccountMappingV2) : Except Err (DexAccounts α) :=
  match dexType with
  | .RaydiumCpmm => (resolveRaydiumCpmmByIndices table m).map .raydiumCpmm
  | .RaydiumClmm => (resolveRaydiumClmmByIndices table m).map .raydiumClmm
  | .PumpFunBondingCurve => (resolvePumpfunByIndices table m).map .pumpfun
  | .PumpSwap => (resolvePumpswapByIndices table m).map .pumpswap

/-- One step's account resolution as performed in `execute_arbitrage`
(lines 96-112): `validate_indices_for_dex` on the mapping, then the
per-venue resolution. -/
def resolveStep (table : List α) (dexType : DexType)
    (m : PathAccountMappingV2) : Except Err (DexAccounts α) :=
  match validateIndicesForDex table.length m with
  | .error e => .error e
  | .ok _ => resolveDexAccounts table dexType m

/-- `SwapResult` (src/dex_router/types.rs). -/
structure SwapResult where
  amountOut : Nat
  feeAmount : Nat
  deriving DecidableEq, Repr

/-- `DexRouter::validate_swap_result` (src/dex_router/router.rs lines 80-93):
fails with `DexRouterError::InsufficientOutputAmount` when the measured
output is below the step's minimum. -/
def validateSwapResult (result : SwapResult) (minimumAmountOut : Nat) : Except Err Unit :=
  if result.amountOut < minimumAmountOut then .error .DexInsufficientOutputAmount
  else .ok ()

/-- The step loop of `execute_arbitrage` (lines 79-202).  Everything between
mapping validation and the swap (resolution, account lookup, the adapter's
nested invocation) is abstracted by the environment oracle `results`, which
yields each executed step's outcome; the slippage gate
(`validate_swap_result`) and the chaining of `current_amount` are explicit.
The second component counts how many steps were actually executed. -/
def runSteps (steps : List PathStep) (results : Nat → Except Err SwapResult)
    (current : Nat) : Except Err Nat × Nat :=
  match steps with
  | [] => (.ok current, 0)
  | step :: rest =>
      match results 0 with
      | .error e => (.error e, 1)
      | .ok r =>
          match validateSwapResult r step.minimumAmountOut with
          | .error e => (.error e, 1)
          | .ok _ =>
              let next := runSteps rest (fun j => results (j + 1)) r.amountOut
              (next.1, next.2 + 1)

/-- The final profitability gate of `execute_arbitrage` (lines 204-210):
`require!(current >= input.saturating_add(min_profit))`, then the reported
profit is `current - input`. -/
def finalProfitCheck (inputAmount minProfitLamports current : Nat) : Except Err Nat :=
  if satAdd64 inputAmount minProfitLamports ≤ current then .ok (current - inputAmount)
  else .error .InsufficientProfit

/-- External effects of one invocation: the outcome of the setup phase
(fixed-address checks, `initialize`, `derive_for_path`) and the per-step
outcome of resolution plus the venue adapter's nested call. -/
structure Env where
  derivationResult : Except Err Unit
  stepResults : Nat → Except Err SwapResult

/-- `execute_arbitrage` (src/instructions/execute_arbitrage.rs) end to end:
pre-checks, setup/derivation, the step loop with the slippage gate, and the
final profitability gate. -/
def executeArbitrage (p : ArbitrageParams) (env : Env) : Except Err Nat :=
  match validateParams p with
  | .error e => .error e
  | .ok _ =>
      match env.derivationResult with
      | .error e => .error e
      | .ok _ =>
          match (runSteps p.pathSteps env.stepResults p.inputAmount).1 with
          | .error e => .error e
          | .ok current => finalProfitCheck p.inputAmount p.minProfitLamports current

/-- Little-endian byte-list to `Nat` (`u64::from_le_bytes`); each byte is
taken mod 256 as in the u8 representation. -/
def leBytesToNat : List Nat → Nat
  | [] => 0
  | b :: rest => b % 256 + 256 * leBytesToNat rest

/-- `RaydiumCpmmSwap::read_token_account_balance`
(src/dex_router/swaps.rs lines 243-259): token-account data must be at least
72 bytes; the balance is the little-endian u64 at offset 64. -/
def readTokenAccountBalance (data : List Nat) : Except Err Nat :=
  if data.length < 72 then .error .InvalidAccount
  else .ok (leBytesToNat ((data.drop 64).take 8))

/-- The little-endian bytes of a u64 value. -/
def u64LeBytes (n : Nat) : List Nat :=
  (List.range 8).map (fun i => n / 256 ^ i % 256)

/-- A token-account byte blob (zero mint and owner) whose balance field holds
`amount`: 64 zero bytes followed by the 8 little-endian balance bytes. -/
def mockTokenAccountData (amount : Nat) : List Nat :=
  List.replicate 64 0 ++ u64LeBytes amount

/-- `RaydiumCpmmSwap::calculate_actual_output_after_cpi`
(src/dex_router/swaps.rs lines 100-126): reads the output account's current
balance; returns that absolute balance (or the estimate
`amount*997/1000` when the balance is 0 or unreadable). -/
def calculateActualOutputAfterCpi (outputAccountData : List Nat)
    (originalAmount : Nat) : Except Err Nat :=
  match readTokenAccountBalance outputAccountData with
  | .ok currentBalance =>
      if currentBalance = 0 then .ok ((checkedMulU64 originalAmount 997).getD 0 / 1000)
      else .ok currentBalance
  | .error _ => .ok ((checkedMulU64 originalAmount 997).getD 0 / 1000)

/-- `RaydiumCpmmSwap::calculate_output_amount`
(src/dex_router/swaps.rs lines 202-240): the constant-product estimate from
the vault balances with checked u128 arithmetic, a 0.3% fee, and the
`as u64` truncation of the quotient. -/
def cpmmCalculateOutputAmount (amountIn : Nat) (vault0Data vault1Data : List Nat) :
    Except Err Nat :=
  match readTokenAccountBalance vault0Data, readTokenAccountBalance vault1Data with
  | .ok balance0, .ok balance1 =>
      if 0 < balance0 ∧ 0 < balance1 then
        match checkedMulU128 balance1 amountIn with
        | none => .error .MathOverflow
        | some numerator =>
            match checkedAddU128 balance0 amountIn with
            | none => .error .MathOverflow
            | some denominator =>
                .ok ((checkedMulU64 (numerator / denominator % U64MOD) 997).getD 0 / 1000)
      else .ok ((checkedMulU64 amountIn 997).getD 0 / 1000)
  | _, _ => .ok ((checkedMulU64 amountIn 997).getD 0 / 1000)

/-- The value `calculate_output_amount` produces on its (always-taken, for
u64-sized inputs) success paths, as a pure function. -/
def cpmmEstimateOut (amountIn : Nat) (vault0Data vault1Data : List Nat) : Nat :=
  match readTokenAccountBalance vault0Data, readTokenAccountBalance vault1Data with
  | .ok balance0, .ok balance1 =>
      if 0 < balance0 ∧ 0 < balance1 then
        (checkedMulU64 (balance1 * amountIn / (balance0 + amountIn) % U64MOD) 997).getD 0 / 1000
      else (checkedMulU64 amountIn 997).getD 0 / 1000
  | _, _ => (checkedMulU64 amountIn 997).getD 0 / 1000

/-- The CPMM fee computation `amount_in.checked_mul(3).unwrap_or(0) / 1000`. -/
def cpmmFee (amountIn : Nat) : Nat := (checkedMulU64 amountIn 3).getD 0 / 1000

/-- The result handling of `RaydiumCpmmSwap::execute_swap` after the nested
call (src/dex_router/swaps.rs lines 326-361): on CPI success, report the
balance read by `calculate_actual_output_after_cpi`; on CPI failure, fall
back to the constant-product estimate, failing with
`InsufficientOutputAmount` only when the estimate is below the minimum. -/
def cpmmHandleCpiOutcome (cpiResult : Except Err Unit) (outputAccountData : List Nat)
    (vault0Data vault1Data : List Nat) (amountIn minimumAmountOut : Nat) :
    Except Err SwapResult :=
  match cpiResult with
  | .ok _ =>
      match calculateActualOutputAfterCpi outputAccountData amountIn with
      | .error e => .error e
      | .ok actualOutput => .ok ⟨actualOutput, cpmmFee amountIn⟩
  | .error _ =>
      match cpmmCalculateOutputAmount amountIn vault0Data vault1Data with
      | .error e => .error e
      | .ok expectedOutput =>
          if expectedOutput < minimumAmountOut then .error .InsufficientOutputAmount
          else .ok ⟨expectedOutput, cpmmFee amountIn⟩

/-- `RaydiumClmmSwap::execute_clmm_cpi` result handling
(src/dex_router/swaps.rs lines 454-470): a failed `invoke` propagates
verbatim; on success the reported `amount_out` is the precomputed
`expected_output`, not a measured balance. -/
def executeClmmCpi (invokeResult : Except Err Unit) (amountIn expectedOutput : Nat) :
    Except Err SwapResult :=
  match invokeResult with
  | .error e => .error e
  | .ok _ => .ok ⟨expectedOutput, cpmmFee amountIn⟩

/-- `PumpswapSwap::execute_pumpswap_cpi` result handling
(src/dex_router/swaps.rs lines 857-868): a failed `invoke` propagates
verbatim; on success the reported `amount_out` is the precomputed
`expected_output`; the fee is the wrapping u64 product `amount_in * 25 / 10000`. -/
def executePumpswapCpi (invokeResult : Except Err Unit) (amountIn expectedOutput : Nat) :
    Except Err SwapResult :=
  match invokeResult with
  | .error e => .error e
  | .ok _ => .ok ⟨expectedOutput, amountIn * 25 % U64MOD / 10000⟩

/-- `PumpfunSwap::execute_pumpfun_buy` (src/dex_router/swaps.rs lines
625-667): performs no nested call at all and returns the expected token
amount as a mock result. -/
def executePumpfunBuy (solAmount expectedTokens : Nat) : Except Err SwapResult :=
  .ok ⟨expectedTokens, solAmount * 95 % U64MOD / 10000⟩

/-- `PumpfunSwap::execute_pumpfun_sell` (src/dex_router/swaps.rs lines
670-696): likewise no nested call; returns the expected native amount. -/
def executePumpfunSell (_tokenAmount expectedSol : Nat) : Except Err SwapResult :=
  .ok ⟨expectedSol, expectedSol * 95 % U64MOD / 10000⟩

/-- `PumpfunSwap::is_buy_operation` (src/dex_router/swaps.rs lines 711-719):
returns `Ok(true)` unconditionally (the mint comparison is a TODO). -/
def isBuyOperation (_userInputAccount : Pubkey) (_tokenMint : Pubkey) : Except Err Bool :=
  .ok true

/-- `ProgramIds` (src/account_derivation/types.rs). -/
structure ProgramIds where
  raydiumCpmm : Pubkey
  raydiumClmm : Pubkey
  pumpfun : Pubkey
  pumpswap : Pubkey
  tokenProgram : Pubkey
  token2022Program : Pubkey
  associatedTokenProgram : Pubkey
  memoProgram : Pubkey
  systemProgram : Pubkey
  deriving DecidableEq, Repr

/-- `DerivedAccounts::get_token_program_for_mint`
(src/account_derivation/derivation.rs lines 67-74): consult the
`mint -> token_program` cache; for an uncached mint return
`program_ids.token_program` unconditionally (the account table is never
inspected; the owner check is a TODO in the source). -/
def getTokenProgramForMint (tokenProgramsCache : List (Pubkey × Pubkey))
    (mint : Pubkey) (programIds : ProgramIds) : Pubkey :=
  match tokenProgramsCache.lookup mint with
  | some cached => cached
  | none => programIds.tokenProgram

/-- One entry of the caller-supplied flat account table: its address and its
owner namespace (the fields token-standard detection is specified to read). -/
structure AccountTableEntry where
  key : Pubkey
  owner : Pubkey
  deriving DecidableEq, Repr

/-- Reference definition following the specification's words for
`detect_token_standard` (spec §4.1): scan the flat table for the entry whose
address equals the mint, classify by its owner namespace, default to the
legacy program when absent.  Used only to exhibit the divergence of the
implemented `get_token_program_for_mint`. -/
def specDetectTokenStandard (table : List AccountTableEntry) (mint : Pubkey)
    (programIds : ProgramIds) : Pubkey :=
  match table.find? (fun e => e.key == mint) with
  | some e =>
      if e.owner = programIds.token2022Program then programIds.token2022Program
      else programIds.tokenProgram
  | none => programIds.tokenProgram

/-- The derivation requests `DerivedAccounts` caches, keyed as in the
`HashMap` keys of src/account_derivation/derivation.rs. -/
inductive DerivKey where
  | userAta (mint : Pubkey)
  | cpmmAuthority
  | pumpfunBondingCurve (mint : Pubkey)
  | pumpfunAssociatedBondingCurve (bondingCurve mint : Pubkey)
  | pumpfunGlobalVolumeAccumulator
  | pumpfunUserVolumeAccumulator (user : Pubkey)
  | pumpswapGlobalConfig
  | poolTokenAta (pool mint : Pubkey)
  deriving DecidableEq, Repr

/-- The sequence of derivations `DerivedAccounts::derive_for_path` performs
for one step (src/account_derivation/derivation.rs lines 480-507): both user
token accounts, then the venue-specific derivations.  The issuance
(PumpFun) branch keys the bonding curve by `step.output_mint`
unconditionally and never derives the volume accumulators. -/
def deriveForPathStep (step : PathStep) : List DerivKey :=
  [.userAta step.inputMint, .userAta step.outputMint] ++
  match step.dexType with
  | .RaydiumCpmm => [.cpmmAuthority]
  | .RaydiumClmm => []
  | .PumpFunBondingCurve =>
      [.pumpfunBondingCurve step.outputMint] ++
      (match step.poolId with
       | some bondingCurve => [.pumpfunAssociatedBondingCurve bondingCurve step.outputMint]
       | none => [])
  | .PumpSwap =>
      [.pumpswapGlobalConfig] ++
      (match step.poolId with
       | some poolId => [.poolTokenAta poolId step.inputMint,
                         .poolTokenAta poolId step.outputMint]
       | none => [])

/-- `DerivedAccounts::derive_for_path` over a whole path
(src/account_derivation/derivation.rs lines 479-509). -/
def deriveForPath (path : List PathStep) : List DerivKey :=
  path.flatMap deriveForPathStep

/-- Model of the `WRAPPED_SOL_MINT` fixed address (an arbitrary distinguished
code for the opaque wrapped-native mint). -/
def wrappedSolMint : Pubkey := 999

/-- Reference predicate following the specification's words for direction
inference (spec §4.1 / §8): a hop whose `output_mint` equals the
wrapped-native mint is a sell. -/
def specIsSellOperation (step : PathStep) : Bool :=
  step.outputMint == wrappedSolMint

/-- Reference definition following the specification's words: the mint that
keys the issuance-venue state is always the non-native side. -/
def specIssuanceStateKey (step : PathStep) : Pubkey :=
  if specIsSellOperation step then step.inputMint else step.outputMint

/-- Concrete issuance-venue sell step (token 7 → wrapped native). -/
def c9SellStep : PathStep :=
  ⟨none, .PumpFunBondingCurve, 7, wrappedSolMint, 0⟩

/-- Concrete issuance-venue buy step (wrapped native → token 7). -/
def c9BuyStep : PathStep :=
  ⟨none, .PumpFunBondingCurve, wrappedSolMint, 7, 0⟩

/-- Concrete `ProgramIds` used to evaluate token-standard detection. -/
def c7Ids : ProgramIds :=
  ⟨101, 102, 103, 104, 1, 2, 3, 4, 5⟩

/-- A saturation-corner invocation: one step whose measured output is
`u64::MAX`, with `input_amount = u64::MAX` and `min_profit = 50`. -/
def satStep : PathStep := ⟨none, .RaydiumCpmm, 1, 2, 0⟩

/-- Mapping for the saturation-corner invocation (contents irrelevant to the
pre-checks). -/
def satMapping : PathAccountMappingV2 := ⟨.RaydiumCpmm, .CPMM, []⟩

/-- Parameters of the saturation-corner invocation. -/
def satParams : ArbitrageParams :=
  ⟨u64Max, 50, 0, [satStep], [satMapping]⟩

/-- Environment of the saturation-corner invocation: derivation succeeds and
the single step reports `u64::MAX` out. -/
def satEnv : Env :=
  ⟨.ok (), fun _ => .ok ⟨u64Max, 0⟩⟩

/-- A constant-product mapping with 263 indices: `263 as u8 = 7`, so the
count check passes although the length is not 7. -/
def cpmm263Mapping : PathAccountMappingV2 :=
  ⟨.RaydiumCpmm, .CPMM, List.replicate 263 0⟩

/-! ## Helper lemmas -/

/-- `List.getElem?` agrees on a list and its 256-prefix below index 256. -/
theorem take_getElem_agree {α : Type} (l : List α) (n i : Nat) (h : i < n) :
    (l.take n)[i]? = l[i]? := by
  induction l generalizing n i with
  | nil => simp
  | cons a as ih =>
    cases n with
    | zero => omega
    | succ m =>
      cases i with
      | zero => simp
      | succ j => simpa using ih m j (by omega)

/-- Characterization of the bounds-and-duplicates loop with an arbitrary
seen-set. -/
theorem indexLoop_ok_iff (total : Nat) :
    ∀ (idxs seen : List U8), indexLoop total seen idxs = .ok () ↔
      ((∀ i ∈ idxs, (i : Nat) < total) ∧ idxs.Nodup ∧ ∀ i ∈ idxs, i ∉ seen) := by
  intro idxs
  induction idxs with
  | nil => intro seen; simp [indexLoop]
  | cons a rest ih =>
    intro seen
    simp only [indexLoop]
    by_cases h1 : total ≤ (a : Nat)
    · rw [if_pos h1]
      constructor
      · intro h; exact Except.noConfusion h
      · rintro ⟨hb, -, -⟩
        exact absurd (hb a (List.mem_cons_self a rest)) (by omega)
    · rw [if_neg h1]
      by_cases h2 : a ∈ seen
      · rw [if_pos h2]
        constructor
        · intro h; exact Except.noConfusion h
        · rintro ⟨-, -, hs⟩
          exact absurd h2 (hs a (List.mem_cons_self a rest))
      · rw [if_neg h2, ih (a :: seen)]
        constructor
        · rintro ⟨hb, hnd, hs⟩
          refine ⟨?_, ?_, ?_⟩
          · intro i hi
            rcases List.mem_cons.mp hi with rfl | hi
            · omega
            · exact hb i hi
          · exact List.nodup_cons.mpr
              ⟨fun hmem => (hs a hmem) (List.mem_cons_self a seen), hnd⟩
          · intro i hi
            rcases List.mem_cons.mp hi with rfl | hi
            · exact h2
            · exact fun hmem => hs i hi (List.mem_cons_of_mem a hmem)
        · rintro ⟨hb, hnd, hs⟩
          have hanotin : a ∉ rest := (List.nodup_cons.mp hnd).1
          refine ⟨?_, (List.nodup_cons.mp hnd).2, ?_⟩
          · intro i hi; exact hb i (List.mem_cons_of_mem a hi)
          · intro i hi
            intro hmem
            rcases List.mem_cons.mp hmem with rfl | hmem
            · exact hanotin hi
            · exact hs i (List.mem_cons_of_mem a hi) hmem

/-- The loop only ever produces `ok` or `InvalidAccountIndex`. -/
theorem indexLoop_ok_or_invalid (total : Nat) :
    ∀ (idxs seen : List U8), indexLoop total seen idxs = .ok () ∨
      indexLoop total seen idxs = .error .InvalidAccountIndex := by
  intro idxs
  induction idxs with
  | nil => intro seen; left; rfl
  | cons a rest ih =>
    intro seen
    simp only [indexLoop]
    by_cases h1 : total ≤ (a : Nat)
    · rw [if_pos h1]; right; rfl
    · rw [if_neg h1]
      by_cases h2 : a ∈ seen
      · rw [if_pos h2]; right; rfl
      · rw [if_neg h2]; exact ih (a :: seen)

/-! ## Claim theorems -/

/-- Claim C4: for every `ArbitrageParams`, `execute_arbitrage` fails with a
fatal parameter error before anything else runs when a pre-check is
violated — empty path `PathTooShort`, more than 10 steps `PathTooLong`,
zero `input_amount` `InvalidAmount`, mapping-list length differing from the
step-list length a parameter error — and no pre-check failure occurs
otherwise.  The final disjunct shows the outcome is already fixed
independently of the derivation/step environment whenever a pre-check
fails. -/
theorem precheck_characterization (p : ArbitrageParams) (env env' : Env) :
    (validateParams p = .error .PathTooShort ↔ p.pathSteps.length = 0) ∧
    (validateParams p = .error .PathTooLong ↔ 10 < p.pathSteps.length) ∧
    (validateParams p = .error .InvalidAmount ↔
      1 ≤ p.pathSteps.length ∧ p.pathSteps.length ≤ 10 ∧ p.inputAmount = 0) ∧
    (validateParams p = .error .InvalidAccountCount ↔
      1 ≤ p.pathSteps.length ∧ p.pathSteps.length ≤ 10 ∧ 0 < p.inputAmount ∧
      p.accountMappingsV2.length ≠ p.pathSteps.length) ∧
    (validateParams p = .ok () ↔
      1 ≤ p.pathSteps.length ∧ p.pathSteps.length ≤ 10 ∧ 0 < p.inputAmount ∧
      p.accountMappingsV2.length = p.pathSteps.length) ∧
    (validateParams p = .ok () ∨ executeArbitrage p env = executeArbitrage p env') := by
  by_cases h1 : p.pathSteps.isEmpty = true
  · have hlen : p.pathSteps.length = 0 := by
      simpa [List.isEmpty_iff, List.length_eq_zero] using h1
    have hv : validateParams p = .error .PathTooShort := by
      simp [validateParams, h1]
    refine ⟨?_, ?_, ?_, ?_, ?_, Or.inr (by simp [executeArbitrage, hv])⟩ <;>
      rw [hv] <;> simp only [Except.error.injEq, Except.ok.injEq, reduceCtorEq,
        eq_self_iff_true, true_iff, false_iff, iff_true, iff_false, ne_eq,
        not_and, not_lt, not_le, not_not, not_forall] <;> omega
  · have hlen0 : p.pathSteps.length ≠ 0 := by
      simpa [List.isEmpty_iff, List.length_eq_zero] using h1
    by_cases h2 : p.pathSteps.length > 10
    · have hv : validateParams p = .error .PathTooLong := by
        simp [validateParams, h1, h2]
      refine ⟨?_, ?_, ?_, ?_, ?_, Or.inr (by simp [executeArbitrage, hv])⟩ <;>
        rw [hv] <;> simp only [Except.error.injEq, Except.ok.injEq, reduceCtorEq,
        eq_self_iff_true, true_iff, false_iff, iff_true, iff_false, ne_eq,
        not_and, not_lt, not_le, not_not, not_forall] <;> omega
    · by_cases h3 : p.inputAmount = 0
      · have hv : validateParams p = .error .InvalidAmount := by
          simp [validateParams, h1, h2, h3]
        refine ⟨?_, ?_, ?_, ?_, ?_, Or.inr (by simp [executeArbitrage, hv])⟩ <;>
          rw [hv] <;> simp only [Except.error.injEq, Except.ok.injEq, reduceCtorEq,
        eq_self_iff_true, true_iff, false_iff, iff_true, iff_false, ne_eq,
        not_and, not_lt, not_le, not_not, not_forall] <;> omega
      · by_cases h4 : p.accountMappingsV2.length ≠ p.pathSteps.length
        · have hv : validateParams p = .error .InvalidAccountCount := by
            simp [validateParams, h1, h2, h3, h4]
          refine ⟨?_, ?_, ?_, ?_, ?_, Or.inr (by simp [executeArbitrage, hv])⟩ <;>
            rw [hv] <;> simp only [Except.error.injEq, Except.ok.injEq, reduceCtorEq,
        eq_self_iff_true, true_iff, false_iff, iff_true, iff_false, ne_eq,
        not_and, not_lt, not_le, not_not, not_forall] <;> omega
        · have hv : validateParams p = .ok () := by
            simp [validateParams, h1, h2, h3, h4]
          refine ⟨?_, ?_, ?_, ?_, ?_, Or.inl hv⟩ <;>
            rw [hv] <;> simp only [Except.error.injEq, Except.ok.injEq, reduceCtorEq,
        eq_self_iff_true, true_iff, false_iff, iff_true, iff_false, ne_eq,
        not_and, not_lt, not_le, not_not, not_forall] <;> omega

/-- Claim C5: the index-validation stage succeeds exactly when every index
of the mapping is below the flat-table length and the indices are pairwise
distinct, and any violation (out-of-bounds index or duplicate) makes it
fail with `InvalidAccountIndex` — never any silent substitution. -/
theorem index_validation_characterization (total : Nat) (idxs : List U8) :
    (checkIndices total idxs = .ok () ↔
      (∀ i ∈ idxs, (i : Nat) < total) ∧ idxs.Nodup) ∧
    (checkIndices total idxs = .error .InvalidAccountIndex ↔
      ¬ ((∀ i ∈ idxs, (i : Nat) < total) ∧ idxs.Nodup)) := by
  have h1 := indexLoop_ok_iff total idxs []
  have h2 := indexLoop_ok_or_invalid total idxs []
  unfold checkIndices
  constructor
  · rw [h1]; simp
  · constructor
    · intro herr hok
      have hok2 : indexLoop total [] idxs = .ok () := h1.mpr ⟨hok.1, hok.2, by simp⟩
      rw [herr] at hok2
      exact Except.noConfusion hok2
    · intro hnot
      rcases h2 with hok | herr
      · have := h1.mp hok
        exact absurd ⟨this.1, this.2.1⟩ hnot
      · exact herr

set_option maxRecDepth 4000 in
/-- Claim C6 counterexample: a constant-product mapping with 263 indices is
outside the expected count 7, yet the count check passes (263 truncates to 7
as u8) and the whole validate-then-resolve pipeline fails with
`InvalidAccountIndex`, not `InvalidAccountCount`. -/
theorem cpmm263_count_check_slips_through :
    resolveStep ([0] : List Nat) .RaydiumCpmm cpmm263Mapping = .error .InvalidAccountIndex ∧
    indicesCountCheck .RaydiumCpmm cpmm263Mapping.indices.length = .ok () ∧
    cpmm263Mapping.indices.length = 263 ∧
    getExpectedAccountCount .RaydiumCpmm = 7 := by
  refine ⟨?_, ?_, ?_, rfl⟩ <;> decide

/-- Claim C6 amended: the count validation compares the index-list length
truncated to 8 bits (`len as u8`, i.e. `len % 256`): it fails with
`InvalidAccountCount` exactly when the truncated length is outside the
venue's expected count (7 for constant-product, 11 for
concentrated-liquidity, 3..4 for issuance, 4..6 for fee-share); in
particular 6 or 8 indices fail and exactly 7 passes for constant-product. -/
theorem count_validation_mod256 (len : Nat) :
    (indicesCountCheck .RaydiumCpmm len = .ok () ↔ len % 256 = 7) ∧
    (indicesCountCheck .RaydiumClmm len = .ok () ↔ len % 256 = 11) ∧
    (indicesCountCheck .PumpFunBondingCurve len = .ok () ↔
      3 ≤ len % 256 ∧ len % 256 ≤ 4) ∧
    (indicesCountCheck .PumpSwap len = .ok () ↔
      4 ≤ len % 256 ∧ len % 256 ≤ 6) ∧
    (∀ d : DexType, indicesCountCheck d len = .ok () ∨
      indicesCountCheck d len = .error .InvalidAccountCount) ∧
    indicesCountCheck .RaydiumCpmm 6 = .error .InvalidAccountCount ∧
    indicesCountCheck .RaydiumCpmm 8 = .error .InvalidAccountCount ∧
    indicesCountCheck .RaydiumCpmm 7 = .ok () := by
  refine ⟨?_, ?_, ?_, ?_, ?_, by decide, by decide, by decide⟩
  · simp only [indicesCountCheck, getExpectedAccountCount]
    split_ifs with h <;> simp_all
  · simp only [indicesCountCheck]
    split_ifs with h <;> simp_all
  · simp only [indicesCountCheck]
    split_ifs with h <;> simp_all
  · simp only [indicesCountCheck]
    split_ifs with h <;> simp_all
  · intro d
    cases d <;> simp only [indicesCountCheck, getExpectedAccountCount] <;>
      split_ifs <;> simp

/-- Claim C10: mapping indices are 8-bit, so the resolver's table lookup
only ever selects positions 0 through 255: the result of `ai` on any table
equals its result on the table's first 256 entries, and the selected
position is always below 256 — an entry at position 256 or later is
unreachable through any mapping index. -/
theorem mapping_indices_only_reach_first_256 (α : Type) (table : List α) (idx : U8) :
    (idx : Nat) < 256 ∧ resolverAi table idx = resolverAi (table.take 256) idx := by
  refine ⟨idx.isLt, ?_⟩
  unfold resolverAi
  rw [take_getElem_agree table 256 (idx : Nat) idx.isLt]

/-- A byte-list value is below `256 ^ length`. -/
theorem leBytesToNat_lt (l : List Nat) : leBytesToNat l < 256 ^ l.length := by
  induction l with
  | nil => simp [leBytesToNat]
  | cons b rest ih =>
    simp only [leBytesToNat, List.length_cons]
    have hb : b % 256 < 256 := Nat.mod_lt _ (by norm_num)
    calc b % 256 + 256 * leBytesToNat rest
        < 256 * (leBytesToNat rest + 1) := by omega
      _ ≤ 256 * 256 ^ rest.length := Nat.mul_le_mul_left 256 (Nat.succ_le_of_lt ih)
      _ = 256 ^ (rest.length + 1) := by ring

/-- A successfully read token-account balance is a u64 value. -/
theorem readTokenAccountBalance_lt (data : List Nat) (b : Nat)
    (h : readTokenAccountBalance data = .ok b) : b < U64MOD := by
  unfold readTokenAccountBalance at h
  split_ifs at h with hlen
  simp only [Except.ok.injEq] at h
  subst h
  have h1 := leBytesToNat_lt ((data.drop 64).take 8)
  have h2 : ((data.drop 64).take 8).length ≤ 8 := by
    simp [List.length_take]
  have h3 : (256 : Nat) ^ ((data.drop 64).take 8).length ≤ 256 ^ 8 :=
    Nat.pow_le_pow_right (by norm_num) h2
  have h4 : (256 : Nat) ^ 8 = U64MOD := by norm_num [U64MOD]
  omega

/-- For u64-sized inputs, `calculate_output_amount` never takes its overflow
error paths: it returns the pure constant-product estimate. -/
theorem cpmmCalculateOutputAmount_eq (amountIn : Nat) (v0 v1 : List Nat)
    (hAmt : amountIn < U64MOD) :
    cpmmCalculateOutputAmount amountIn v0 v1 = .ok (cpmmEstimateOut amountIn v0 v1) := by
  unfold cpmmCalculateOutputAmount cpmmEstimateOut
  cases h0 : readTokenAccountBalance v0 with
  | error e0 => cases h1 : readTokenAccountBalance v1 <;> simp [h0, h1]
  | ok b0 =>
    cases h1 : readTokenAccountBalance v1 with
    | error e1 => simp [h0, h1]
    | ok b1 =>
      by_cases hpos : 0 < b0 ∧ 0 < b1
      · have hb0 := readTokenAccountBalance_lt v0 b0 h0
        have hb1 := readTokenAccountBalance_lt v1 b1 h1
        have h64 : U64MOD * U64MOD = 2 ^ 128 := by norm_num [U64MOD]
        have hmul : b1 * amountIn < 2 ^ 128 := by
          calc b1 * amountIn < U64MOD * U64MOD :=
                mul_lt_mul'' hb1 hAmt (Nat.zero_le _) (Nat.zero_le _)
            _ = 2 ^ 128 := h64
        have hadd : b0 + amountIn < 2 ^ 128 := by
          have hle : U64MOD + U64MOD ≤ 2 ^ 128 := by norm_num [U64MOD]
          omega
        simp only [h0, h1]
        rw [if_pos hpos, if_pos hpos]
        simp only [checkedMulU128, checkedAddU128]
        rw [if_pos hmul, if_pos hadd]
      · simp [h0, h1, hpos]

/-- Claim C1 counterexample: at the u64 saturation corner the invocation
succeeds although `current_amount < input_amount + min_profit` over the
integers: the step loop completes with `current_amount = u64::MAX`,
`input_amount = u64::MAX`, `min_profit = 50`, and the final gate
(`saturating_add`) passes, committing with reported profit 0. -/
theorem profit_gate_saturation_counterexample :
    executeArbitrage satParams satEnv = .ok 0 ∧ u64Max < u64Max + 50 := by
  constructor
  · rfl
  · exact Nat.lt_add_of_pos_right (by norm_num)

/-- Claim C1 amended: the invocation succeeds exactly when the step loop
completes with a final running amount at least the u64 *saturating* sum
`input_amount.saturating_add(min_profit)` (equal to `input_amount +
min_profit` whenever that sum fits in u64), the reported profit being
`current_amount - input_amount`; in particular with `input_amount = 1000`,
`min_profit = 50` a final amount of 1040 aborts with `InsufficientProfit`
and 1051 commits with reported profit 51. -/
theorem profit_gate_amended (p : ArbitrageParams) (env : Env) (r : Nat) :
    (executeArbitrage p env = .ok r ↔
      validateParams p = .ok () ∧ env.derivationResult = .ok () ∧
      ∃ current, (runSteps p.pathSteps env.stepResults p.inputAmount).1 = .ok current ∧
        satAdd64 p.inputAmount p.minProfitLamports ≤ current ∧
        r = current - p.inputAmount) ∧
    finalProfitCheck 1000 50 1040 = .error .InsufficientProfit ∧
    finalProfitCheck 1000 50 1051 = .ok 51 := by
  refine ⟨?_, by decide, by decide⟩
  unfold executeArbitrage
  cases hv : validateParams p with
  | error e => simp [hv]
  | ok u =>
    cases hd : env.derivationResult with
    | error e => simp [hv, hd]
    | ok u2 =>
      cases hr : (runSteps p.pathSteps env.stepResults p.inputAmount).1 with
      | error e => simp [hv, hd, hr]
      | ok current =>
        simp only [hv, hd, hr]
        unfold finalProfitCheck
        by_cases hth : satAdd64 p.inputAmount p.minProfitLamports ≤ current
        · simp only [if_pos hth]
          constructor
          · intro h
            have h2 : current - p.inputAmount = r := Except.ok.inj h
            exact ⟨trivial, trivial, current, rfl, hth, h2.symm⟩
          · rintro ⟨-, -, c, hc, -, rfl⟩
            have h2 : current = c := Except.ok.inj hc
            rw [h2]
        · simp only [if_neg hth]
          constructor
          · intro h; exact absurd h (by simp)
          · rintro ⟨-, -, c, hc, hth2, -⟩
            have h2 : current = c := Except.ok.inj hc
            exact absurd (h2 ▸ hth2) hth

/-- Claim C2 (code-bug evaluation): with a user output account whose
post-invocation balance is 1500 (pre-invocation 1000), the constant-product
adapter reports `amount_out = 1500` — the absolute post balance, not the
balance difference 500 demanded by the claim; and the
concentrated-liquidity adapter reports the precomputed `expected_output`
(857 here) with no balance read at all. -/
theorem measured_output_is_absolute_balance :
    calculateActualOutputAfterCpi (mockTokenAccountData 1500) 1000 = .ok 1500 ∧
    (1500 : Nat) - 1000 = 500 ∧ (1500 : Nat) ≠ 500 ∧
    executeClmmCpi (.ok ()) 1000 857 = .ok ⟨857, 3⟩ := by
  refine ⟨by decide, by norm_num, by norm_num, by decide⟩

/-- Claim C3 counterexample: the constant-product adapter recovers locally
from a failed nested call — with the nested invocation failing, vault
balances 1000/1000, `amount_in = 100` and `minimum_amount_out = 0`, it
returns a *successful* `SwapResult` carrying the analytic estimate 89. -/
theorem cpmm_recovers_from_failed_cpi :
    cpmmHandleCpiOutcome (.error .SwapExecutionFailed) (mockTokenAccountData 1500)
      (mockTokenAccountData 1000) (mockTokenAccountData 1000) 100 0 = .ok ⟨89, 0⟩ := by
  decide

/-- Claim C3 amended: the concentrated-liquidity and fee-share adapters
propagate a nested-call failure verbatim, and the issuance adapter performs
no nested call at all (mock success); but the constant-product adapter, when
the nested call fails, falls back to the constant-product estimate from the
vault balances, returning a successful `SwapResult` whenever the estimate
meets `minimum_amount_out` and failing with `InsufficientOutputAmount`
otherwise. -/
theorem nested_call_failure_handling (e : Err)
    (amountIn expectedOutput minimumAmountOut : Nat) (od v0 v1 : List Nat)
    (hAmt : amountIn < U64MOD) :
    executeClmmCpi (.error e) amountIn expectedOutput = .error e ∧
    executePumpswapCpi (.error e) amountIn expectedOutput = .error e ∧
    executePumpfunBuy amountIn expectedOutput =
      .ok ⟨expectedOutput, amountIn * 95 % U64MOD / 10000⟩ ∧
    cpmmHandleCpiOutcome (.error e) od v0 v1 amountIn minimumAmountOut =
      (if cpmmEstimateOut amountIn v0 v1 < minimumAmountOut then
        .error .InsufficientOutputAmount
       else .ok ⟨cpmmEstimateOut amountIn v0 v1, cpmmFee amountIn⟩) := by
  refine ⟨rfl, rfl, rfl, ?_⟩
  unfold cpmmHandleCpiOutcome
  rw [cpmmCalculateOutputAmount_eq amountIn v0 v1 hAmt]

/-- Witness for `nested_call_failure_handling` at a concrete input. -/
theorem nested_call_failure_handling_witness :
    (100 : Nat) < U64MOD ∧
    (executeClmmCpi (.error .SwapExecutionFailed) 100 0 = .error .SwapExecutionFailed ∧
     executePumpswapCpi (.error .SwapExecutionFailed) 100 0 = .error .SwapExecutionFailed ∧
     executePumpfunBuy 100 0 = .ok ⟨0, 100 * 95 % U64MOD / 10000⟩ ∧
     cpmmHandleCpiOutcome (.error .SwapExecutionFailed) [] [] [] 100 0 =
       (if cpmmEstimateOut 100 [] [] < 0 then .error .InsufficientOutputAmount
        else .ok ⟨cpmmEstimateOut 100 [] [], cpmmFee 100⟩)) :=
  ⟨by norm_num [U64MOD],
   nested_call_failure_handling .SwapExecutionFailed 100 0 0 [] [] []
     (by norm_num [U64MOD])⟩

/-- Claim C7 (code-bug evaluation): for an uncached mint that is present in
the flat table and owned by the Token-2022 program, the implemented
`get_token_program_for_mint` still returns the legacy token program (it
never inspects the table — it does not even receive it), whereas the
specified table-scanning classification returns the extended program. -/
theorem token_standard_detection_ignores_table :
    getTokenProgramForMint [] 5 c7Ids = c7Ids.tokenProgram ∧
    specDetectTokenStandard [⟨5, c7Ids.token2022Program⟩] 5 c7Ids =
      c7Ids.token2022Program ∧
    c7Ids.tokenProgram ≠ c7Ids.token2022Program := by
  refine ⟨rfl, by decide, by decide⟩

/-- Claim C8: whenever the first `k` steps pass the slippage gate and step
`k`'s measured `amount_out` is strictly below that step's
`minimum_amount_out`, the whole path aborts with
`InsufficientOutputAmount` (the `DexRouterError` variant raised by
`validate_swap_result`) and exactly `k+1` steps were executed — no later
step ever runs. -/
theorem slippage_gate_aborts_path (steps : List PathStep)
    (results : Nat → Except Err SwapResult) (k : Nat) (stepK : PathStep)
    (rK : SwapResult)
    (hstep : steps[k]? = some stepK)
    (hres : results k = .ok rK)
    (hlt : rK.amountOut < stepK.minimumAmountOut)
    (hprev : ∀ j, j < k → ∃ sj rj, steps[j]? = some sj ∧ results j = .ok rj ∧
      sj.minimumAmountOut ≤ rj.amountOut)
    (a0 : Nat) :
    runSteps steps results a0 = (.error .DexInsufficientOutputAmount, k + 1) := by
  revert hstep hres hprev
  induction k generalizing steps results a0 with
  | zero =>
    intro hstep hres hprev
    cases steps with
    | nil => simp at hstep
    | cons s rest =>
      have hs : s = stepK := by simpa using hstep
      subst hs
      simp only [runSteps, hres]
      simp [validateSwapResult, hlt]
  | succ k ih =>
    intro hstep hres hprev
    cases steps with
    | nil => simp at hstep
    | cons s rest =>
      obtain ⟨s0, r0, hs0, hr0, hge⟩ := hprev 0 (Nat.succ_pos k)
      have hss : s = s0 := by simpa using hs0
      subst hss
      have hgate : validateSwapResult r0 s.minimumAmountOut = .ok () := by
        simp [validateSwapResult, Nat.not_lt.mpr hge]
      simp only [runSteps, hr0, hgate]
      have hrec := ih rest (fun j => results (j + 1)) r0.amountOut
        (by simpa using hstep)
        (by simpa using hres)
        (fun j hj => by
          obtain ⟨sj, rj, h1, h2, h3⟩ := hprev (j + 1) (Nat.succ_lt_succ hj)
          exact ⟨sj, rj, by simpa using h1, h2, h3⟩)
      rw [hrec]

/-- Witness for `slippage_gate_aborts_path`: one step with
`minimum_amount_out = 600` and a measured output of 500 aborts the path
with `InsufficientOutputAmount` after executing exactly that one step. -/
theorem slippage_gate_aborts_path_witness :
    runSteps [⟨none, .RaydiumCpmm, 1, 2, 600⟩] (fun _ => .ok ⟨500, 0⟩) 1000 =
      (.error .DexInsufficientOutputAmount, 1) :=
  slippage_gate_aborts_path [⟨none, .RaydiumCpmm, 1, 2, 600⟩]
    (fun _ => .ok ⟨500, 0⟩) 0 ⟨none, .RaydiumCpmm, 1, 2, 600⟩ ⟨500, 0⟩
    rfl rfl (by decide) (fun j hj => absurd hj (Nat.not_lt_zero j)) 1000

/-- Claim C9 (code-bug evaluation): direction inference for issuance-venue
hops does not exist in the code — `is_buy_operation` returns `Ok(true)`
unconditionally, so a sell step (output = wrapped-native mint) is classified
as a buy; `derive_for_path` keys the bonding curve by `output_mint`
unconditionally (here the wrapped-native mint instead of the token side 7),
and never derives the global/user volume accumulators, even for a buy. -/
theorem direction_inference_stubbed :
    (∀ a b : Pubkey, isBuyOperation a b = .ok true) ∧
    specIsSellOperation c9SellStep = true ∧
    deriveForPathStep c9SellStep =
      [.userAta 7, .userAta wrappedSolMint, .pumpfunBondingCurve wrappedSolMint] ∧
    specIssuanceStateKey c9SellStep = 7 ∧
    DerivKey.pumpfunBondingCurve (specIssuanceStateKey c9SellStep) ∉
      deriveForPathStep c9SellStep ∧
    deriveForPathStep c9BuyStep =
      [.userAta wrappedSolMint, .userAta 7, .pumpfunBondingCurve 7] ∧
    DerivKey.pumpfunGlobalVolumeAccumulator ∉ deriveForPath [c9BuyStep] := by
  refine ⟨fun a b => rfl, by decide, by decide, by decide, by decide, by decide, by decide⟩

end ArbitrageContract
